/-
Verification of the kstar_mcp translation-and-execution pipeline.

Shallow embedding of:
  src/src/llm/command_parser.py   (CommandParser: demo / quick-pattern / LLM strategies)
  src/src/core/execution_engine.py (CommandExecutionEngine: parse, validate, dispatch,
                                    monitor, complete; cancellation; registry)
  src/src/ui/demo_ui.py            (feedback simulator tick in _update_demo_monitoring)

Conventions:
  Python floats are embedded as exact rationals; all arithmetic in the source is
  decimal-exact at the values of interest.  Wall-clock timestamps are modelled as
  set/unset flags.  Calls into src/epics/controller.py (a file of this repository
  that is not under src/) are modelled as environment parameters, and its static
  safety-limit table is modelled from the spec where a concrete instance is needed.
  The regular expressions of the source are embedded via a small backtracking
  matcher (ordered alternation, greedy and lazy repetition, one capture group)
  mirroring Python re semantics for the patterns that occur.
-/
import Mathlib

/-! ## Regular-expression engine

A tiny backtracking matcher sufficient for the patterns used by the source:
literal characters, character classes, ordered alternation, greedy and lazy
repetition, greedy option, and a single capture group per pattern. -/

/-- Regular-expression syntax tree for the patterns occurring in the source. -/
inductive RE where
  | eps : RE
  | lit : Char → RE
  | cls : (Char → Bool) → RE
  | seqr : RE → RE → RE
  | alt : RE → RE → RE
  | star : Bool → RE → RE   -- star true r is lazy (Python *?), star false r greedy
  | opt : RE → RE           -- greedy ? (present first, as in Python)
  | group : RE → RE         -- the single capture group of the pattern

/-- Literal string as a regex. -/
def RE.lits (s : String) : RE :=
  s.data.foldr (fun c r => RE.seqr (RE.lit c) r) RE.eps

/-- Ordered alternation over a nonempty list, first alternative preferred
(Python alternation order). -/
def RE.alts : List RE → RE
  | [] => RE.eps
  | [r] => r
  | r :: rs => RE.alt r (RE.alts rs)

/-- Backtracking matcher in continuation-passing style, fuelled for termination.
The continuation receives the remaining input and the capture recorded so far;
the overall result is none on failure and some cap on the first success in
Python backtracking order. -/
def mre : Nat → RE → List Char → Option (List Char) →
    (List Char → Option (List Char) → Option (Option (List Char))) →
    Option (Option (List Char))
  | 0, _, _, _, _ => none
  | _ + 1, RE.eps, s, cap, k => k s cap
  | _ + 1, RE.lit c, s, cap, k =>
    match s with
    | [] => none
    | c' :: rest => if c' = c then k rest cap else none
  | _ + 1, RE.cls p, s, cap, k =>
    match s with
    | [] => none
    | c' :: rest => if p c' then k rest cap else none
  | f + 1, RE.seqr a b, s, cap, k =>
    mre f a s cap (fun s' cap' => mre f b s' cap' k)
  | f + 1, RE.alt a b, s, cap, k =>
    (mre f a s cap k) <|> (mre f b s cap k)
  | f + 1, RE.opt r, s, cap, k =>
    (mre f r s cap k) <|> k s cap
  | f + 1, RE.star lazy r, s, cap, k =>
    if lazy then
      (k s cap) <|> mre f r s cap (fun s' cap' => mre f (RE.star lazy r) s' cap' k)
    else
      (mre f r s cap (fun s' cap' => mre f (RE.star lazy r) s' cap' k)) <|> k s cap
  | f + 1, RE.group r, s, cap, k =>
    mre f r s cap (fun s' _ => k s' (some (s.take (s.length - s'.length))))

/-- Fuel bound: generous depth for the small patterns and short inputs at hand. -/
def reFuel (s : List Char) : Nat := 400 * (s.length + 4)

/-- Attempt a match anchored at the start of s; on success returns the captured
group content. -/
def reTryAt (r : RE) (s : List Char) : Option (Option (List Char)) :=
  mre (reFuel s) r s none (fun _ cap => some cap)

/-- Python re.search / the first match of re.findall: try successive start
positions left to right and return the first match's single-group capture. -/
def research (r : RE) (s : List Char) : Option (List Char) :=
  match reTryAt r s with
  | some cap => cap
  | none =>
    match s with
    | [] => none
    | _ :: rest => research r rest

/-! ## Character helpers and numeral parsing -/

/-- Python \d restricted to ASCII digits (the only digits the inputs contain). -/
def isDigitP (c : Char) : Bool := c.isDigit

/-- Python \s restricted to ASCII whitespace. -/
def isSpaceP (c : Char) : Bool :=
  c = ' ' || c = '\t' || c = '\n' || c = '\r' || c = '\x0b' || c = '\x0c'

/-- Python . (any character except newline). -/
def isNotNl (c : Char) : Bool := c ≠ '\n'

/-- Python str.lower restricted to ASCII (Hangul has no case; the source inputs
contain only ASCII letters and Hangul). -/
def pyLower (s : String) : String := String.mk (s.data.map Char.toLower)

/-- Value of a digit string. -/
def digitsToNat (ds : List Char) : Nat :=
  ds.foldl (fun n c => n * 10 + (c.toNat - '0'.toNat)) 0

/-- Python float(...) on a capture of shape digits or digits.digits, as an exact
rational. -/
def floatOfChars (cs : List Char) : ℚ :=
  let ip := cs.takeWhile (fun c => c ≠ '.')
  let rest := cs.dropWhile (fun c => c ≠ '.')
  match rest with
  | [] => (digitsToNat ip : ℚ)
  | _ :: fp => (digitsToNat ip : ℚ) + (digitsToNat fp : ℚ) / ((10 : ℚ) ^ fp.length)

/-- Regex fragment for a number: \d+(?:\.\d+)? with the usual greedy semantics. -/
def numRE : RE :=
  RE.seqr (RE.seqr (RE.cls isDigitP) (RE.star false (RE.cls isDigitP)))
    (RE.opt (RE.seqr (RE.lit '.')
      (RE.seqr (RE.cls isDigitP) (RE.star false (RE.cls isDigitP)))))

/-- Regex fragment \s* (greedy). -/
def wsStar : RE := RE.star false (RE.cls isSpaceP)

/-- Regex fragment .*? (lazy dot-star). -/
def dotStarLazy : RE := RE.star true (RE.cls isNotNl)

/-! ## Parser data model (src/src/llm/command_parser.py) -/

/-- EPICS control command data class (ControlCommand in the source). -/
structure ControlCommand where
  pv_name : String
  value : ℚ
  unit : String
  description : String
  priority : Int := 1
  deriving Repr, DecidableEq

/-- Parsed natural language command (ParsedCommand in the source). -/
structure ParsedCommand where
  original_command : String
  intent : String
  target_value : Option ℚ
  duration : Option ℚ
  control_commands : List ControlCommand
  safety_checks : List String
  estimated_time : ℚ
  deriving Repr, DecidableEq

/-! ## Demo strategy (_demo_parse_command)

Patterns, in the order of the source's temp_patterns list, matched against
command.lower(); matches[0] of re.findall is the first match's group. -/

/-- Unit alternation (?:keV|kev|도) of the demo patterns. -/
def demoUnitRE : RE := RE.alts [RE.lits "keV", RE.lits "kev", RE.lits "도"]

/-- Demo pattern 1: (?:temperature|temp|온도).*?(\d+(?:\.\d+)?)\s*(?:keV|kev|도) -/
def demoPat1 : RE :=
  RE.seqr (RE.alts [RE.lits "temperature", RE.lits "temp", RE.lits "온도"])
    (RE.seqr dotStarLazy (RE.seqr (RE.group numRE) (RE.seqr wsStar demoUnitRE)))

/-- Demo pattern 2: (\d+(?:\.\d+)?)\s*(?:keV|kev|도) -/
def demoPat2 : RE :=
  RE.seqr (RE.group numRE) (RE.seqr wsStar demoUnitRE)

/-- Demo pattern 3: (?:to|올려|낮춰|설정).*?(\d+(?:\.\d+)?) -/
def demoPat3 : RE :=
  RE.seqr (RE.alts [RE.lits "to", RE.lits "올려", RE.lits "낮춰", RE.lits "설정"])
    (RE.seqr dotStarLazy (RE.group numRE))

/-- Demo pattern 4: (\d+(?:\.\d+)?) -/
def demoPat4 : RE := RE.group numRE

/-- The for-loop over temp_patterns in _demo_parse_command: first pattern with a
match wins; yields float(matches[0]). -/
def demoExtractTemp (command : String) : Option ℚ :=
  let cs := (pyLower command).data
  match research demoPat1 cs with
  | some cap => some (floatOfChars cap)
  | none =>
    match research demoPat2 cs with
    | some cap => some (floatOfChars cap)
    | none =>
      match research demoPat3 cs with
      | some cap => some (floatOfChars cap)
      | none =>
        match research demoPat4 cs with
        | some cap => some (floatOfChars cap)
        | none => none

/-- The effective target after the truthiness test in the source:
if not target_temp: target_temp = 10.0.  Python None and 0.0 are both falsy. -/
def demoEffectiveTemp (command : String) : ℚ :=
  match demoExtractTemp command with
  | none => 10
  | some t => if t = 0 then 10 else t

/-- _demo_parse_command.  The numeral rendered inside the description strings is
kept abstract via toString of the rational (no claim inspects descriptions). -/
def demoParseCommand (command : String) : ParsedCommand :=
  let target_temp := demoEffectiveTemp command
  let base_current : ℚ := 1200
  let base_power : ℚ := 50
  let temp_diff := target_temp - 8    -- Reference temperature 8keV
  let coil_current := base_current + temp_diff * 100
  let heater_power := base_power + temp_diff * 5
  { original_command := command
    intent := "temperature_control"
    target_value := some target_temp
    duration := some 5
    control_commands :=
      [ { pv_name := "KSTAR:COIL:CURR", value := coil_current, unit := "A",
          description := "Temperature control via coil current for " ++
            toString target_temp ++ " keV", priority := 1 },
        { pv_name := "KSTAR:HEATER:POW", value := heater_power, unit := "%",
          description := "Temperature control via heater power for " ++
            toString target_temp ++ " keV", priority := 1 } ]
    safety_checks := ["demo_mode_safety_check"]
    estimated_time := 5 }

/-! ## Quick-pattern strategy (_quick_parse) and duration extraction -/

/-- Shared core of the four quick-parse patterns:
온도를?\s*(\d+(?:\.\d+)?)\s*(?:keV|도|도씨)?\s*(?:로|으로)?\s*VERB -/
def quickPat (verb : RE) : RE :=
  RE.seqr (RE.lits "온도")
    (RE.seqr (RE.opt (RE.lit '를'))
      (RE.seqr wsStar
        (RE.seqr (RE.group numRE)
          (RE.seqr wsStar
            (RE.seqr (RE.opt (RE.alts [RE.lits "keV", RE.lits "도", RE.lits "도씨"]))
              (RE.seqr wsStar
                (RE.seqr (RE.opt (RE.alts [RE.lits "로", RE.lits "으로"]))
                  (RE.seqr wsStar verb))))))))

/-- The temp_patterns list of _quick_parse, in source order
(raise / lower / set / hold verbs). -/
def quickPatterns : List RE :=
  [ quickPat (RE.alts [RE.lits "올려", RE.lits "높여", RE.lits "증가"]),
    quickPat (RE.alts [RE.lits "내려", RE.lits "낮춰", RE.lits "감소"]),
    quickPat (RE.alts [RE.lits "설정", RE.lits "조절"]),
    quickPat (RE.lits "유지") ]

/-- First quick pattern that re.search accepts, with its group(1) capture. -/
def quickMatch (command : String) : Option (List Char) :=
  (quickPatterns.map (fun p => research p command.data)).foldl (fun acc r => acc <|> r) none

/-- Duration pattern (\d+)\s*초\s*(?:동안|간) and its 분/시간 variants. -/
def durPat (unitWord : String) : RE :=
  RE.seqr (RE.group (RE.seqr (RE.cls isDigitP) (RE.star false (RE.cls isDigitP))))
    (RE.seqr wsStar (RE.seqr (RE.lits unitWord)
      (RE.seqr wsStar (RE.alts [RE.lits "동안", RE.lits "간"]))))

/-- _extract_duration: the three Korean-unit patterns tried in order; minutes
are scaled by 60 and hours by 3600. -/
def extractDuration (command : String) : Option ℚ :=
  let cs := command.data
  match research (durPat "초") cs with
  | some cap => some (floatOfChars cap)
  | none =>
    match research (durPat "분") cs with
    | some cap => some (floatOfChars cap * 60)
    | none =>
      match research (durPat "시간") cs with
      | some cap => some (floatOfChars cap * 3600)
      | none => none

/-- _generate_temperature_commands: asymmetric directional model around the
assumed current temperature 8.0 keV; returns the empty list when the target
equals the current temperature. -/
def generateTemperatureCommands (target_temp : ℚ) : List ControlCommand :=
  let current_temp : ℚ := 8
  if target_temp > current_temp then
    let temp_diff := target_temp - current_temp
    let coil_current := min (1500 + temp_diff * 100) 2000
    let heater_power := min (70 + temp_diff * 5) 100
    [ { pv_name := "KSTAR:COIL:CURR", value := coil_current, unit := "A",
        description := "Temperature control via coil current for " ++
          toString target_temp ++ " keV", priority := 1 },
      { pv_name := "KSTAR:HEATER:POW", value := heater_power, unit := "%",
        description := "Temperature control via heater power for " ++
          toString target_temp ++ " keV", priority := 1 } ]
  else if target_temp < current_temp then
    let temp_diff := current_temp - target_temp
    let coil_current := max (1000 - temp_diff * 50) 500
    let heater_power := max (30 - temp_diff * 3) 10
    [ { pv_name := "KSTAR:COIL:CURR", value := coil_current, unit := "A",
        description := "Temperature control via coil current reduction for " ++
          toString target_temp ++ " keV", priority := 1 },
      { pv_name := "KSTAR:HEATER:POW", value := heater_power, unit := "%",
        description := "Temperature control via heater power reduction for " ++
          toString target_temp ++ " keV", priority := 1 } ]
  else []

/-- _quick_parse: on a pattern match, extract the target and optional duration
and build the command; estimated_time is duration or 10.0 with Python
truthiness (None and 0.0 both fall back to 10.0). -/
def quickParse (command : String) : Option ParsedCommand :=
  match quickMatch command with
  | none => none
  | some cap =>
    let target_temp := floatOfChars cap
    let duration := extractDuration command
    some
      { original_command := command
        intent := "temperature_control"
        target_value := some target_temp
        duration := duration
        control_commands := generateTemperatureCommands target_temp
        safety_checks := ["temperature_range", "heating_power_limit"]
        estimated_time :=
          match duration with
          | none => 10
          | some d => if d = 0 then 10 else d }

/-! ## Semantic-model strategy (_llm_parse)

The external service reply is modelled as an Except: an error covers a network
failure or json.loads failure; an ok value is the decoded JSON.  Field access
result[key] raises KeyError when absent (an error here); dict.get returns a
default.  The embedding types the schema fields; it agrees with the source on
every reply whose present fields carry the schema types and on every failure
the claims quantify over (network error, invalid JSON, missing required field). -/

/-- Decoded JSON value. -/
inductive JVal where
  | jnull : JVal
  | jbool : Bool → JVal
  | jnum : ℚ → JVal
  | jstr : String → JVal
  | jarr : List JVal → JVal
  | jobj : List (String × JVal) → JVal

/-- Dictionary lookup on a decoded JSON object. -/
def jlookup : List (String × JVal) → String → Option JVal
  | [], _ => none
  | (k, v) :: rest, key => if k = key then some v else jlookup rest key

/-- result[key]: KeyError when the key is absent. -/
def jget (j : JVal) (key : String) : Except String JVal :=
  match j with
  | JVal.jobj fields =>
    match jlookup fields key with
    | some v => Except.ok v
    | none => Except.error ("KeyError: " ++ key)
  | _ => Except.error "TypeError: not a dict"

/-- dict.get(key): none when absent. -/
def jgetOpt (j : JVal) (key : String) : Option JVal :=
  match j with
  | JVal.jobj fields => jlookup fields key
  | _ => none

/-- Schema-typed string field. -/
def asStr : JVal → Except String String
  | JVal.jstr s => Except.ok s
  | _ => Except.error "TypeError: expected string"

/-- Schema-typed numeric field. -/
def asNum : JVal → Except String ℚ
  | JVal.jnum q => Except.ok q
  | _ => Except.error "TypeError: expected number"

/-- One entry of result["control_commands"]; pv_name, value, unit and
description are required (KeyError when absent), priority defaults to 1. -/
def convertControlCommand (c : JVal) : Except String ControlCommand := do
  let pv ← jget c "pv_name" >>= asStr
  let v ← jget c "value" >>= asNum
  let u ← jget c "unit" >>= asStr
  let d ← jget c "description" >>= asStr
  let pr : Int :=
    match jgetOpt c "priority" with
    | some (JVal.jnum q) => q.num
    | _ => 1
  pure { pv_name := pv, value := v, unit := u, description := d, priority := pr }

/-- Optional numeric field via dict.get (absent or null become none). -/
def jnumOpt (j : JVal) (key : String) : Option ℚ :=
  match jgetOpt j key with
  | some (JVal.jnum q) => some q
  | _ => none

/-- result.get("safety_checks", []): the string entries of the list, or []. -/
def jstrListOpt (j : JVal) (key : String) : List String :=
  match jgetOpt j key with
  | some (JVal.jarr xs) => xs.filterMap (fun v => match v with
      | JVal.jstr s => some s
      | _ => none)
  | _ => []

/-- Body of the try-block of _llm_parse after json.loads: build the
ControlCommand objects, then the ParsedCommand, any KeyError propagating. -/
def convertLLMResult (command : String) (result : JVal) : Except String ParsedCommand := do
  let ccsJ ← jget result "control_commands"
  let items ←
    match ccsJ with
    | JVal.jarr xs => Except.ok xs
    | _ => Except.error "TypeError: control_commands not a list"
  let ccs ← items.mapM convertControlCommand
  let intent ← jget result "intent" >>= asStr
  pure
    { original_command := command
      intent := intent
      target_value := jnumOpt result "target_value"
      duration := jnumOpt result "duration"
      control_commands := ccs
      safety_checks := jstrListOpt result "safety_checks"
      estimated_time := (jnumOpt result "estimated_time").getD 10 }

/-- _create_fallback_command. -/
def createFallbackCommand (command : String) : ParsedCommand :=
  { original_command := command
    intent := "unknown"
    target_value := none
    duration := none
    control_commands := []
    safety_checks := ["manual_review"]
    estimated_time := 5 }

/-- _llm_parse: the whole call-and-convert sequence runs inside try/except; any
failure is absorbed into the fallback command. -/
def llmParse (command : String) (response : Except String JVal) : ParsedCommand :=
  match response >>= convertLLMResult command with
  | Except.ok pc => pc
  | Except.error _ => createFallbackCommand command

/-- parse_command: demo mode uses the rule-based strategy; otherwise the quick
patterns are tried first and the LLM strategy is the fallback. -/
def parseCommand (demoMode : Bool) (llmResponse : Except String JVal)
    (command : String) : ParsedCommand :=
  if demoMode then demoParseCommand command
  else
    match quickParse command with
    | some pc => pc
    | none => llmParse command llmResponse

/-! ## Execution engine (src/src/core/execution_engine.py) -/

/-- Command execution status. -/
inductive ExecutionStatus where
  | pending | parsing | executing | monitoring | completed | failed | cancelled
  deriving Repr, DecidableEq

/-- Terminal statuses. -/
def ExecutionStatus.isTerminal : ExecutionStatus → Bool
  | ExecutionStatus.completed => true
  | ExecutionStatus.failed => true
  | ExecutionStatus.cancelled => true
  | _ => false

/-- Modelled from the spec: OperationResult (§3, §6) as produced by
EPICSController.execute_parsed_command; the defining file
src/epics/controller.py is not under src/.  Only success is consulted by the
engine code under verification. -/
structure ControlResult where
  pv_name : String
  requested_value : ℚ
  unit : String
  success : Bool
  previous_value : ℚ
  new_value : ℚ
  execution_time : ℚ
  deriving Repr, DecidableEq

/-- Command execution step.  Wall-clock fields are modelled as set/unset flags;
the heterogeneous step.result is modelled by the flag result_set (the safety
stage's recorded value is performSafetyChecks below). -/
structure ExecutionStep where
  step_id : String
  name : String
  status : ExecutionStatus
  start_time_set : Bool := false
  end_time_set : Bool := false
  duration_set : Bool := false
  result_set : Bool := false
  error_message : Option String := none
  deriving Repr, DecidableEq

/-- Command execution session (CommandExecution in the source).  Callback lists
are omitted: _notify_status_change swallows observer errors and never mutates
the execution. -/
structure CommandExecution where
  execution_id : String
  original_command : String
  parsed_command : Option ParsedCommand := none
  status : ExecutionStatus := ExecutionStatus.pending
  start_time_set : Bool := false
  end_time_set : Bool := false
  steps : List ExecutionStep := []
  results : List ControlResult := []
  progress : ℚ := 0
  current_step : Option String := none
  error_message : Option String := none
  deriving Repr, DecidableEq

/-- One entry of safety_result["checks"]. -/
structure SafetyCheckEntry where
  ctype : String
  pv : String
  value : ℚ
  status : String
  deriving Repr, DecidableEq

/-- safety_result dictionary of _perform_safety_checks. -/
structure SafetyResult where
  passed : Bool
  checks : List SafetyCheckEntry
  warnings : List String
  deriving Repr, DecidableEq

/-- _perform_safety_checks: per-command limit check via
controller._check_safety_limits (passed as checkLimits), then the advisory
duration warning.  The guard `parsed_command.duration and duration > 60` is
truthiness-equivalent to: a duration is present and exceeds 60. -/
def performSafetyChecks (checkLimits : String → ℚ → Bool)
    (parsed_command : ParsedCommand) : SafetyResult :=
  let init : SafetyResult := { passed := true, checks := [], warnings := [] }
  let afterChecks := parsed_command.control_commands.foldl
    (fun acc cmd =>
      if checkLimits cmd.pv_name cmd.value = false then
        { acc with
          passed := false
          checks := acc.checks ++
            [{ ctype := "safety_limit", pv := cmd.pv_name, value := cmd.value,
               status := "FAILED" }] }
      else
        { acc with
          checks := acc.checks ++
            [{ ctype := "safety_limit", pv := cmd.pv_name, value := cmd.value,
               status := "PASSED" }] })
    init
  match parsed_command.duration with
  | some d =>
    if d > 60 then
      { afterChecks with warnings := afterChecks.warnings ++
          ["Long-term control execution - caution required"] }
    else afterChecks
  | none => afterChecks

/-- Environment of one engine run: the outcome of each call that leaves the
engine (parser, controller limit table, dispatch, monitoring loop); the two
controller calls live in src/epics/controller.py, which is not under src/. -/
structure EngineEnv where
  checkLimits : String → ℚ → Bool
  parseResult : Except String ParsedCommand
  safetyThrows : Option String
  dispatchResult : Except String (List ControlResult)
  monitorResult : Except String Unit

/-- Update the first step with the given id (the for/break loop of
_complete_step and _fail_step). -/
def updateFirstStep (steps : List ExecutionStep) (sid : String)
    (f : ExecutionStep → ExecutionStep) : List ExecutionStep :=
  match steps with
  | [] => []
  | st :: rest =>
    if st.step_id = sid then f st :: rest else st :: updateFirstStep rest sid f

/-- _add_step. -/
def addStep (ex : CommandExecution) (sid nm : String) : CommandExecution :=
  { ex with
    steps := ex.steps ++
      [{ step_id := sid, name := nm, status := ExecutionStatus.pending,
         start_time_set := true }]
    current_step := some sid }

/-- _complete_step. -/
def completeStep (ex : CommandExecution) (sid : String) : CommandExecution :=
  { ex with
    steps := updateFirstStep ex.steps sid (fun st =>
      { st with
        status := ExecutionStatus.completed
        end_time_set := true
        result_set := true
        duration_set := st.start_time_set }) }

/-- _fail_step. -/
def failStep (ex : CommandExecution) (sid msg : String) : CommandExecution :=
  { ex with
    steps := updateFirstStep ex.steps sid (fun st =>
      { st with
        status := ExecutionStatus.failed
        end_time_set := true
        error_message := some msg
        duration_set := st.start_time_set }) }

/-- Snapshot trace entry: the execution's (status, progress) after a mutation
of either field. -/
abbrev Snapshot := ExecutionStatus × ℚ

/-- The except/finally tail of execute_command on a raise out of
_execute_command_internal: status FAILED, error recorded, end time stamped and
progress forced to 100 when a start time exists. -/
def finishRaised (ex : CommandExecution) (msg : String) (tr : List Snapshot) :
    CommandExecution × List Snapshot :=
  let ex1 := { ex with status := ExecutionStatus.failed, error_message := some msg }
  let tr1 := tr ++ [(ExecutionStatus.failed, ex1.progress)]
  let ex2 := { ex1 with end_time_set := true }
  if ex2.start_time_set then
    ({ ex2 with progress := 100 }, tr1 ++ [(ExecutionStatus.failed, 100)])
  else (ex2, tr1)

/-- The finally tail of execute_command on normal return. -/
def finishNormal (ex : CommandExecution) (tr : List Snapshot) :
    CommandExecution × List Snapshot :=
  let ex1 := { ex with end_time_set := true }
  if ex1.start_time_set then
    ({ ex1 with progress := 100 }, tr ++ [(ex1.status, 100)])
  else (ex1, tr)

/-- execute_command together with _execute_command_internal: the five-stage
pipeline over one execution, also yielding the (status, progress) snapshot
trace.  The safety stage computes performSafetyChecks and records it on the
step, but the engine never consults its passed flag before dispatch. -/
def runExecuteCommand (env : EngineEnv) (command executionId : String) :
    CommandExecution × List Snapshot :=
  let ex0 : CommandExecution :=
    { execution_id := executionId, original_command := command }
  let tr0 : List Snapshot := [(ExecutionStatus.pending, 0)]
  let ex1 := { ex0 with start_time_set := true, status := ExecutionStatus.parsing }
  let tr1 := tr0 ++ [(ExecutionStatus.parsing, ex1.progress)]
  let ex2 := addStep ex1 "parsing" "Natural language command parsing"
  match env.parseResult with
  | Except.error e => finishRaised (failStep ex2 "parsing" e) e tr1
  | Except.ok pc =>
    let ex3 := completeStep { ex2 with parsed_command := some pc } "parsing"
    let ex4 := { ex3 with progress := 20 }
    let tr2 := tr1 ++ [(ex4.status, 20)]
    let ex5 := addStep ex4 "safety_check" "Safety validation"
    match env.safetyThrows with
    | some e => finishRaised (failStep ex5 "safety_check" e) e tr2
    | none =>
      let ex6 := { completeStep ex5 "safety_check" with progress := 40 }
      let tr3 := tr2 ++ [(ex6.status, 40)]
      let ex7 := { ex6 with status := ExecutionStatus.executing }
      let tr4 := tr3 ++ [(ExecutionStatus.executing, ex7.progress)]
      let ex8 := addStep ex7 "execution" "EPICS control command execution"
      match env.dispatchResult with
      | Except.error e => finishRaised (failStep ex8 "execution" e) e tr4
      | Except.ok rs =>
        let ex9 := { completeStep { ex8 with results := rs } "execution" with
          progress := 70 }
        let tr5 := tr4 ++ [(ex9.status, 70)]
        let ex10 := { ex9 with status := ExecutionStatus.monitoring }
        let tr6 := tr5 ++ [(ExecutionStatus.monitoring, ex10.progress)]
        let ex11 := addStep ex10 "monitoring" "Result monitoring"
        match env.monitorResult with
        | Except.error e =>
          let ex12 := failStep ex11 "monitoring" e
          let ex13 := { ex12 with status := ExecutionStatus.completed }
          let tr7 := tr6 ++ [(ExecutionStatus.completed, ex13.progress)]
          let ex14 := { ex13 with progress := 100 }
          let tr8 := tr7 ++ [(ExecutionStatus.completed, 100)]
          finishNormal ex14 tr8
        | Except.ok _ =>
          let ex12 := { completeStep ex11 "monitoring" with progress := 90 }
          let tr7 := tr6 ++ [(ex12.status, 90)]
          let ex13 := { ex12 with status := ExecutionStatus.completed }
          let tr8 := tr7 ++ [(ExecutionStatus.completed, ex13.progress)]
          let ex14 := { ex13 with progress := 100 }
          let tr9 := tr8 ++ [(ExecutionStatus.completed, 100)]
          finishNormal ex14 tr9

/-- Registry lookup (active_executions dict). -/
def lookupExec (reg : List (String × CommandExecution)) (eid : String) :
    Option CommandExecution :=
  match reg with
  | [] => none
  | (k, ex) :: rest => if k = eid then some ex else lookupExec rest eid

/-- cancel_execution: when the id is tracked, set status CANCELLED and stamp the
end time, unconditionally on the current status. -/
def cancelExecution (reg : List (String × CommandExecution)) (eid : String) :
    List (String × CommandExecution) × Bool :=
  match lookupExec reg eid with
  | some ex =>
    (reg.map (fun p =>
      if p.1 = eid then
        (p.1, { ex with status := ExecutionStatus.cancelled, end_time_set := true })
      else p), true)
  | none => (reg, false)

/-- Modelled from the spec: the static per-target safety-limit table owned by
the Device Interface (src/epics/controller.py, not under src/); ranges from
§4.1 and the operation vocabulary: coil current 0-2000 A, heater power
0-100 %, gas injection 0-1000 sccm, magnetic field 0-3.5 T; unmentioned
targets pass. -/
def specSafetyLimits (pv : String) (v : ℚ) : Bool :=
  if pv = "KSTAR:COIL:CURR" then decide (0 ≤ v ∧ v ≤ 2000)
  else if pv = "KSTAR:HEATER:POW" then decide (0 ≤ v ∧ v ≤ 100)
  else if pv = "KSTAR:GAS:FLOW" then decide (0 ≤ v ∧ v ≤ 1000)
  else if pv = "KSTAR:MAGNET:BT" then decide (0 ≤ v ∧ v ≤ 7/2)
  else true

/-! ## Feedback simulator (demo_ui._update_demo_monitoring) -/

/-- One tick of the feedback simulator: move the readback 5 percent of the way
toward the setpoint whenever the gap exceeds the epsilon 0.01. -/
def demoTick (sp rbv : ℚ) : ℚ :=
  if |sp - rbv| > 1 / 100 then rbv + (sp - rbv) * (5 / 100) else rbv

/-- n ticks of the feedback simulator with the setpoint held fixed. -/
def demoTickN (sp : ℚ) : ℕ → ℚ → ℚ
  | 0, rbv => rbv
  | n + 1, rbv => demoTickN sp n (demoTick sp rbv)

/-! ## Claims about the parser -/

/-- C5: for every input, the demo strategy returns exactly two operations from
the affine model anchored at reference temperature 8.0 with duration 5.0 and
the demo safety check; on "Set temperature to 12 keV" the target is 12.0 with
coil current 1600 and heater power 70. -/
theorem c5_demo_affine_model (s : String) :
    (demoParseCommand s).intent = "temperature_control"
    ∧ (demoParseCommand s).target_value = some (demoEffectiveTemp s)
    ∧ (demoParseCommand s).control_commands.map (fun c => (c.pv_name, c.value)) =
        [("KSTAR:COIL:CURR", 1200 + (demoEffectiveTemp s - 8) * 100),
         ("KSTAR:HEATER:POW", 50 + (demoEffectiveTemp s - 8) * 5)]
    ∧ (demoParseCommand s).duration = some 5
    ∧ (demoParseCommand s).estimated_time = 5
    ∧ (demoParseCommand s).safety_checks = ["demo_mode_safety_check"]
    ∧ (demoParseCommand "Set temperature to 12 keV").target_value = some 12
    ∧ (demoParseCommand "Set temperature to 12 keV").control_commands.map
        (fun c => (c.pv_name, c.value)) =
        [("KSTAR:COIL:CURR", 1600), ("KSTAR:HEATER:POW", 70)] := by
  refine ⟨rfl, rfl, rfl, rfl, rfl, rfl, rfl, ?_⟩
  rw [show (demoParseCommand "Set temperature to 12 keV").control_commands.map
      (fun c => (c.pv_name, c.value)) =
      [("KSTAR:COIL:CURR", 1200 + (demoEffectiveTemp "Set temperature to 12 keV" - 8) * 100),
       ("KSTAR:HEATER:POW", 50 + (demoEffectiveTemp "Set temperature to 12 keV" - 8) * 5)]
    from rfl,
    show demoEffectiveTemp "Set temperature to 12 keV" = 12 from rfl]
  norm_num

/-- C10: a first extracted numeric token of value 0 is falsy in Python, so the
demo strategy falls back to the default target 10.0 exactly as when no number
is present, giving coil current 1400 and heater power 60. -/
theorem c10_zero_target_is_falsy (s : String) (h : demoExtractTemp s = some 0) :
    demoEffectiveTemp s = 10
    ∧ (demoParseCommand s).target_value = some 10
    ∧ (demoParseCommand s).control_commands.map (fun c => c.value) = [1400, 60]
    ∧ (∀ s', demoExtractTemp s' = none → demoEffectiveTemp s' = demoEffectiveTemp s) := by
  have ht : demoEffectiveTemp s = 10 := by
    unfold demoEffectiveTemp
    rw [h]
    norm_num
  refine ⟨ht, ?_, ?_, ?_⟩
  · rw [show (demoParseCommand s).target_value = some (demoEffectiveTemp s) from rfl, ht]
  · rw [show (demoParseCommand s).control_commands.map (fun c => c.value) =
        [1200 + (demoEffectiveTemp s - 8) * 100, 50 + (demoEffectiveTemp s - 8) * 5] from rfl,
      ht]
    norm_num
  · intro s' h'
    have ht' : demoEffectiveTemp s' = 10 := by
      unfold demoEffectiveTemp
      rw [h']
    rw [ht', ht]

theorem c10_witness :
    demoExtractTemp "set temperature to 0 keV" = some 0
    ∧ demoEffectiveTemp "set temperature to 0 keV" = 10
    ∧ (demoParseCommand "set temperature to 0 keV").control_commands.map
        (fun c => c.value) = [1400, 60] :=
  ⟨rfl, (c10_zero_target_is_falsy "set temperature to 0 keV" rfl).1,
    (c10_zero_target_is_falsy "set temperature to 0 keV" rfl).2.2.1⟩

/-- C7 counterexample: an input the quick-pattern strategy matches and that
contains the English clause "5 seconds" yields no duration at all, not 5.0. -/
theorem c7_counterexample :
    (quickParse "온도를 10keV로 올려 5 seconds").map ParsedCommand.duration = some none
    ∧ (quickParse "온도를 10keV로 올려 5 seconds").map ParsedCommand.duration
        ≠ some (some 5) := by
  constructor
  · rfl
  · rw [show (quickParse "온도를 10keV로 올려 5 seconds").map ParsedCommand.duration
        = some none from rfl]
    simp

/-- C7 amended: the duration clauses the strategy recognizes are the Korean
N초/N분/N시간 동안|간 forms, normalized to seconds with minutes scaled by 60 and
hours by 3600; the English clause "5 seconds" is not recognized. -/
theorem c7_korean_duration_clauses :
    (quickParse "온도를 10keV로 올려 5초 동안").map ParsedCommand.duration = some (some 5)
    ∧ (quickParse "온도를 10keV로 올려 3분 동안").map ParsedCommand.duration = some (some 180)
    ∧ (quickParse "온도를 10keV로 올려 2시간 동안").map ParsedCommand.duration
        = some (some 7200)
    ∧ extractDuration "온도를 10keV로 올려 3분 동안" = some (3 * 60)
    ∧ extractDuration "온도를 10keV로 올려 2시간 동안" = some (2 * 3600)
    ∧ extractDuration "온도를 10keV로 올려 5 seconds" = none := by
  refine ⟨rfl, ?_, ?_, rfl, rfl, rfl⟩
  · rw [show (quickParse "온도를 10keV로 올려 3분 동안").map ParsedCommand.duration
        = some (some (3 * 60)) from rfl]
    norm_num
  · rw [show (quickParse "온도를 10keV로 올려 2시간 동안").map ParsedCommand.duration
        = some (some (2 * 3600)) from rfl]
    norm_num

/-- The directional model produces no operations exactly at the assumed current
temperature 8.0. -/
theorem generateTemperatureCommands_empty_iff (t : ℚ) :
    generateTemperatureCommands t = [] ↔ t = 8 := by
  unfold generateTemperatureCommands
  rcases lt_trichotomy t 8 with h | h | h
  · rw [if_neg (by linarith), if_pos h]
    constructor
    · intro hc
      exact absurd hc (by simp)
    · intro hc
      exact absurd (hc ▸ h) (lt_irrefl 8)
  · subst h
    rw [if_neg (by norm_num), if_neg (by norm_num)]
    simp
  · rw [if_pos h]
    constructor
    · intro hc
      exact absurd hc (by simp)
    · intro hc
      exact absurd (hc ▸ h) (lt_irrefl 8)

/-- C8 counterexample: the quick-pattern strategy on an input with target 8.0
returns intent temperature_control together with an empty operations list. -/
theorem c8_counterexample :
    (quickParse "온도를 8로 설정").map (fun p => (p.intent, p.control_commands)) =
      some ("temperature_control", []) := by
  rw [show (quickParse "온도를 8로 설정").map (fun p => (p.intent, p.control_commands))
      = some ("temperature_control", generateTemperatureCommands 8) from rfl,
    show generateTemperatureCommands (8 : ℚ) = [] from
      (generateTemperatureCommands_empty_iff 8).mpr rfl]

/-- C8 amended: the demo strategy always returns two operations and the LLM
fallback is unknown with empty operations, but the quick-pattern strategy
returns a temperature_control command whose operations list is empty exactly
when the extracted target equals the reference temperature 8.0. -/
theorem c8_empty_operations_classification (s cmd : String) :
    (∀ pc, quickParse s = some pc →
      pc.intent = "temperature_control"
      ∧ (pc.control_commands = [] ↔ pc.target_value = some 8))
    ∧ (demoParseCommand cmd).control_commands ≠ []
    ∧ (createFallbackCommand cmd).intent = "unknown"
    ∧ (createFallbackCommand cmd).control_commands = [] := by
  refine ⟨?_, by simp [demoParseCommand], rfl, rfl⟩
  intro pc hpc
  rcases hm : quickMatch s with _ | cap
  · simp [quickParse, hm] at hpc
  · simp only [quickParse, hm] at hpc
    have hrec := Option.some.inj hpc
    subst hrec
    refine ⟨rfl, ?_⟩
    show generateTemperatureCommands (floatOfChars cap) = [] ↔
      some (floatOfChars cap) = some 8
    rw [generateTemperatureCommands_empty_iff]
    simp

theorem c8_witness :
    (quickParse "온도를 8로 설정").map ParsedCommand.intent = some "temperature_control" := by
  rcases hq : quickParse "온도를 8로 설정" with _ | pc
  · have hs : (quickParse "온도를 8로 설정").isSome = true := rfl
    rw [hq] at hs
    simp at hs
  · have h := ((c8_empty_operations_classification "온도를 8로 설정" "x").1 pc hq).1
    simp only [Option.map_some']
    rw [h]

/-! ## Claims about the semantic-model strategy -/

/-- C6: every failure of the semantic-model strategy (network error, invalid
JSON, or a missing required field during conversion) is absorbed into the
fallback command with intent unknown, no operations, the manual_review safety
check and estimated time 5.0, and parse returns that fallback instead of
propagating an error. -/
theorem c6_llm_failures_absorbed (command : String) (response : Except String JVal)
    (e : String) (h : (response >>= convertLLMResult command) = Except.error e) :
    llmParse command response = createFallbackCommand command
    ∧ (llmParse command response).intent = "unknown"
    ∧ (llmParse command response).control_commands = []
    ∧ (llmParse command response).safety_checks = ["manual_review"]
    ∧ (llmParse command response).estimated_time = 5
    ∧ (quickParse command = none →
        parseCommand false response command = createFallbackCommand command) := by
  have hl : llmParse command response = createFallbackCommand command := by
    unfold llmParse
    rw [h]
  refine ⟨hl, ?_, ?_, ?_, ?_, ?_⟩ <;> try rw [hl]
  case _ => rfl
  case _ => rfl
  case _ => rfl
  case _ => rfl
  intro hq
  rw [show parseCommand false response command
      = (match quickParse command with
         | some pc => pc
         | none => llmParse command response) from rfl, hq]
  exact hl

theorem c6_witness :
    ((Except.error "ServiceError: network unreachable" : Except String JVal) >>=
        convertLLMResult "Adjust density to 3e19")
      = Except.error "ServiceError: network unreachable"
    ∧ llmParse "Adjust density to 3e19" (Except.error "ServiceError: network unreachable")
      = createFallbackCommand "Adjust density to 3e19"
    ∧ parseCommand false (Except.error "ServiceError: network unreachable")
        "Adjust density to 3e19"
      = createFallbackCommand "Adjust density to 3e19" :=
  ⟨rfl,
    (c6_llm_failures_absorbed "Adjust density to 3e19"
      (Except.error "ServiceError: network unreachable")
      "ServiceError: network unreachable" rfl).1,
    (c6_llm_failures_absorbed "Adjust density to 3e19"
      (Except.error "ServiceError: network unreachable")
      "ServiceError: network unreachable" rfl).2.2.2.2.2 rfl⟩

/-! ## Claims about the feedback simulator -/

/-- When the gap exceeds epsilon, one tick rescales the gap by 19/20. -/
theorem demoTick_gap (sp rbv : ℚ) (h : |sp - rbv| > 1 / 100) :
    sp - demoTick sp rbv = (sp - rbv) * (19 / 20) := by
  unfold demoTick
  rw [if_pos h]
  ring

/-- When the gap is within epsilon, a tick leaves the readback unchanged. -/
theorem demoTick_fixed (sp rbv : ℚ) (h : ¬ |sp - rbv| > 1 / 100) :
    demoTick sp rbv = rbv := by
  unfold demoTick
  rw [if_neg h]

/-- A readback within epsilon of the setpoint stays put over any number of
ticks. -/
theorem demoTickN_fixed (sp rbv : ℚ) (h : ¬ |sp - rbv| > 1 / 100) :
    ∀ n, demoTickN sp n rbv = rbv := by
  intro n
  induction n with
  | zero => rfl
  | succ m ih =>
    show demoTickN sp m (demoTick sp rbv) = rbv
    rw [demoTick_fixed sp rbv h]
    exact ih

/-- The gap after n ticks is within epsilon or has shrunk by (19/20) to the n. -/
theorem demoTickN_gap_bound (sp : ℚ) :
    ∀ (n : ℕ) (rbv : ℚ), |sp - demoTickN sp n rbv| ≤ 1 / 100
      ∨ |sp - demoTickN sp n rbv| ≤ |sp - rbv| * (19 / 20) ^ n := by
  intro n
  induction n with
  | zero =>
    intro rbv
    right
    rw [pow_zero, mul_one]
    show |sp - rbv| ≤ |sp - rbv|
    exact le_rfl
  | succ m ih =>
    intro rbv
    by_cases hc : |sp - rbv| > 1 / 100
    · have hstep : sp - demoTick sp rbv = (sp - rbv) * (19 / 20) :=
        demoTick_gap sp rbv hc
      have habs : |sp - demoTick sp rbv| = |sp - rbv| * (19 / 20) := by
        rw [hstep, abs_mul, abs_of_pos (by norm_num : (0 : ℚ) < 19 / 20)]
      rcases ih (demoTick sp rbv) with h | h
      · left
        exact h
      · right
        show |sp - demoTickN sp m (demoTick sp rbv)| ≤ |sp - rbv| * (19 / 20) ^ (m + 1)
        calc |sp - demoTickN sp m (demoTick sp rbv)|
            ≤ |sp - demoTick sp rbv| * (19 / 20) ^ m := h
          _ = |sp - rbv| * (19 / 20) ^ (m + 1) := by rw [habs]; ring
    · left
      show |sp - demoTickN sp m (demoTick sp rbv)| ≤ 1 / 100
      rw [demoTick_fixed sp rbv hc, demoTickN_fixed sp rbv hc]
      exact le_of_not_lt hc

/-- A readback below the setpoint never overshoots in one tick. -/
theorem demoTick_no_overshoot_le (sp rbv : ℚ) (h : rbv ≤ sp) : demoTick sp rbv ≤ sp := by
  unfold demoTick
  split_ifs with hc
  · nlinarith [abs_nonneg (sp - rbv)]
  · exact h

/-- A readback above the setpoint never undershoots in one tick. -/
theorem demoTick_no_overshoot_ge (sp rbv : ℚ) (h : sp ≤ rbv) : sp ≤ demoTick sp rbv := by
  unfold demoTick
  split_ifs with hc
  · nlinarith [abs_nonneg (sp - rbv)]
  · exact h

/-- C9: the tick updates the readback by 5 percent of the gap only when the gap
exceeds epsilon = 0.01; from readback 8.0 toward setpoint 10.0 one tick gives
8.1; over the ticks the readback comes within epsilon of the setpoint, and the
sign of setpoint minus readback never flips (no overshoot). -/
theorem c9_feedback_simulator (sp rbv : ℚ) :
    (|sp - rbv| > 1 / 100 → demoTick sp rbv = rbv + (sp - rbv) * (5 / 100))
    ∧ (¬ |sp - rbv| > 1 / 100 → demoTick sp rbv = rbv)
    ∧ demoTick 10 8 = 81 / 10
    ∧ (∃ n, |sp - demoTickN sp n rbv| ≤ 1 / 100)
    ∧ (∀ n, rbv ≤ sp → demoTickN sp n rbv ≤ sp)
    ∧ (∀ n, sp ≤ rbv → sp ≤ demoTickN sp n rbv) := by
  refine ⟨?_, demoTick_fixed sp rbv, ?_, ?_, ?_, ?_⟩
  · intro h
    unfold demoTick
    rw [if_pos h]
  · unfold demoTick
    rw [if_pos (by norm_num)]
    norm_num
  · by_cases h0 : |sp - rbv| ≤ 1 / 100
    · exact ⟨0, h0⟩
    · have hpos : (0 : ℚ) < |sp - rbv| := lt_of_le_of_lt (by norm_num) (lt_of_not_le h0)
      obtain ⟨n, hn⟩ := exists_pow_lt_of_lt_one
        (show (0 : ℚ) < (1 / 100) / |sp - rbv| by positivity)
        (show (19 / 20 : ℚ) < 1 by norm_num)
      refine ⟨n, ?_⟩
      rcases demoTickN_gap_bound sp n rbv with h | h
      · exact h
      · calc |sp - demoTickN sp n rbv|
            ≤ |sp - rbv| * (19 / 20) ^ n := h
          _ ≤ |sp - rbv| * ((1 / 100) / |sp - rbv|) :=
            mul_le_mul_of_nonneg_left (le_of_lt hn) (abs_nonneg _)
          _ = 1 / 100 := by
            field_simp
            ring
  · intro n
    induction n generalizing rbv with
    | zero => exact fun h => h
    | succ m ih =>
      intro h
      show demoTickN sp m (demoTick sp rbv) ≤ sp
      exact ih (demoTick sp rbv) (demoTick_no_overshoot_le sp rbv h)
  · intro n
    induction n generalizing rbv with
    | zero => exact fun h => h
    | succ m ih =>
      intro h
      show sp ≤ demoTickN sp m (demoTick sp rbv)
      exact ih (demoTick sp rbv) (demoTick_no_overshoot_ge sp rbv h)

theorem c9_witness :
    |(10 : ℚ) - 8| > 1 / 100
    ∧ demoTick 10 8 = 81 / 10
    ∧ (∃ n, |(10 : ℚ) - demoTickN 10 n 8| ≤ 1 / 100)
    ∧ demoTickN 10 5 8 ≤ 10 :=
  ⟨by norm_num, (c9_feedback_simulator 10 8).2.2.1,
    (c9_feedback_simulator 10 8).2.2.2.1,
    (c9_feedback_simulator 10 8).2.2.2.2.1 5 (by norm_num)⟩

/-! ## Claims about the execution engine -/

/-- Concrete dispatch results for the successful-run environments (shape of the
spec's OperationResult; the values are irrelevant to the engine claims). -/
def dispatchResultsDemo : List ControlResult :=
  [ { pv_name := "KSTAR:COIL:CURR", requested_value := 1600, unit := "A",
      success := true, previous_value := 1200, new_value := 1600,
      execution_time := 1 / 10 },
    { pv_name := "KSTAR:HEATER:POW", requested_value := 70, unit := "%",
      success := true, previous_value := 50, new_value := 70,
      execution_time := 1 / 10 } ]

/-- Environment of a fully successful demo run of "Set temperature to 12 keV". -/
def engineEnvOK : EngineEnv :=
  { checkLimits := specSafetyLimits
    parseResult := Except.ok (demoParseCommand "Set temperature to 12 keV")
    safetyThrows := none
    dispatchResult := Except.ok dispatchResultsDemo
    monitorResult := Except.ok () }

/-- Environment of the run of "Set temperature to 25 keV": the demo parse
produces a coil current of 2900 A, beyond the 2000 A limit of the modelled
table; dispatch and monitoring succeed. -/
def engineEnvOverLimit : EngineEnv :=
  { checkLimits := specSafetyLimits
    parseResult := Except.ok (demoParseCommand "Set temperature to 25 keV")
    safetyThrows := none
    dispatchResult := Except.ok dispatchResultsDemo
    monitorResult := Except.ok () }

/-- Environment of a run whose monitoring stage raises. -/
def engineEnvMonFail : EngineEnv :=
  { engineEnvOK with monitorResult := Except.error "monitoring degraded" }

/-- Snapshot trace of a run whose parsing stage raises. -/
theorem runExecuteCommand_trace_parseErr (cl : String → ℚ → Bool) (e : String)
    (st : Option String) (dr : Except String (List ControlResult))
    (mr : Except String Unit) (cmd eid : String) :
    (runExecuteCommand ⟨cl, Except.error e, st, dr, mr⟩ cmd eid).2 =
      [(ExecutionStatus.pending, 0), (ExecutionStatus.parsing, 0),
       (ExecutionStatus.failed, 0), (ExecutionStatus.failed, 100)] := rfl

/-- Snapshot trace of a run whose safety stage raises. -/
theorem runExecuteCommand_trace_safetyThrow (cl : String → ℚ → Bool)
    (pc : ParsedCommand) (e : String) (dr : Except String (List ControlResult))
    (mr : Except String Unit) (cmd eid : String) :
    (runExecuteCommand ⟨cl, Except.ok pc, some e, dr, mr⟩ cmd eid).2 =
      [(ExecutionStatus.pending, 0), (ExecutionStatus.parsing, 0),
       (ExecutionStatus.parsing, 20), (ExecutionStatus.failed, 20),
       (ExecutionStatus.failed, 100)] := rfl

/-- Snapshot trace of a run whose dispatch stage raises. -/
theorem runExecuteCommand_trace_dispatchErr (cl : String → ℚ → Bool)
    (pc : ParsedCommand) (e : String) (mr : Except String Unit) (cmd eid : String) :
    (runExecuteCommand ⟨cl, Except.ok pc, none, Except.error e, mr⟩ cmd eid).2 =
      [(ExecutionStatus.pending, 0), (ExecutionStatus.parsing, 0),
       (ExecutionStatus.parsing, 20), (ExecutionStatus.parsing, 40),
       (ExecutionStatus.executing, 40), (ExecutionStatus.failed, 40),
       (ExecutionStatus.failed, 100)] := rfl

/-- Snapshot trace of a run whose monitoring stage raises: the progress snapshot
90 never occurs. -/
theorem runExecuteCommand_trace_monErr (cl : String → ℚ → Bool)
    (pc : ParsedCommand) (rs : List ControlResult) (e : String) (cmd eid : String) :
    (runExecuteCommand ⟨cl, Except.ok pc, none, Except.ok rs, Except.error e⟩ cmd eid).2 =
      [(ExecutionStatus.pending, 0), (ExecutionStatus.parsing, 0),
       (ExecutionStatus.parsing, 20), (ExecutionStatus.parsing, 40),
       (ExecutionStatus.executing, 40), (ExecutionStatus.executing, 70),
       (ExecutionStatus.monitoring, 70), (ExecutionStatus.completed, 70),
       (ExecutionStatus.completed, 100), (ExecutionStatus.completed, 100)] := rfl

/-- Snapshot trace of a fully successful run. -/
theorem runExecuteCommand_trace_allOk (cl : String → ℚ → Bool)
    (pc : ParsedCommand) (rs : List ControlResult) (u : Unit) (cmd eid : String) :
    (runExecuteCommand ⟨cl, Except.ok pc, none, Except.ok rs, Except.ok u⟩ cmd eid).2 =
      [(ExecutionStatus.pending, 0), (ExecutionStatus.parsing, 0),
       (ExecutionStatus.parsing, 20), (ExecutionStatus.parsing, 40),
       (ExecutionStatus.executing, 40), (ExecutionStatus.executing, 70),
       (ExecutionStatus.monitoring, 70), (ExecutionStatus.monitoring, 90),
       (ExecutionStatus.completed, 90), (ExecutionStatus.completed, 100),
       (ExecutionStatus.completed, 100)] := rfl

/-- C2 counterexample: a completed (terminal) execution still tracked in the
registry is flipped to CANCELLED by cancel_execution, so a terminal status does
transition again. -/
theorem c2_counterexample :
    (runExecuteCommand engineEnvOK "Set temperature to 12 keV" "cmd_1").1.status
      = ExecutionStatus.completed
    ∧ ExecutionStatus.isTerminal
        (runExecuteCommand engineEnvOK "Set temperature to 12 keV" "cmd_1").1.status = true
    ∧ (lookupExec
        (cancelExecution
          [("cmd_1", (runExecuteCommand engineEnvOK "Set temperature to 12 keV" "cmd_1").1)]
          "cmd_1").1 "cmd_1").map CommandExecution.status
      = some ExecutionStatus.cancelled
    ∧ (cancelExecution
          [("cmd_1", (runExecuteCommand engineEnvOK "Set temperature to 12 keV" "cmd_1").1)]
          "cmd_1").2 = true := by
  refine ⟨rfl, rfl, rfl, rfl⟩

/-- C2 amended: within a single pipeline run the engine never leaves a terminal
status (every snapshot after a terminal one carries the same status, and the
run ends terminal); cancel_execution, however, sets CANCELLED on any tracked
execution regardless of its current status, including terminal ones. -/
theorem c2_pipeline_terminal_stable (env : EngineEnv) (cmd eid : String) :
    List.Pairwise (fun a b => a.isTerminal = true → b = a)
      ((runExecuteCommand env cmd eid).2.map Prod.fst)
    ∧ (runExecuteCommand env cmd eid).1.status.isTerminal = true
    ∧ (∀ ex : CommandExecution,
        (lookupExec (cancelExecution [(eid, ex)] eid).1 eid).map
          CommandExecution.status = some ExecutionStatus.cancelled) := by
  refine ⟨?_, ?_, ?_⟩
  · obtain ⟨cl, pr, st, dr, mr⟩ := env
    rcases pr with e | pc
    · rw [runExecuteCommand_trace_parseErr]
      decide
    · rcases st with _ | e2
      · rcases dr with e3 | rs
        · rw [runExecuteCommand_trace_dispatchErr]
          decide
        · rcases mr with e4 | u
          · rw [runExecuteCommand_trace_monErr]
            decide
          · rw [runExecuteCommand_trace_allOk]
            decide
      · rw [runExecuteCommand_trace_safetyThrow]
        decide
  · obtain ⟨cl, pr, st, dr, mr⟩ := env
    rcases pr with e | pc
    · rfl
    · rcases st with _ | e2
      · rcases dr with e3 | rs
        · rfl
        · rcases mr with e4 | u
          · rfl
          · rfl
      · rfl
  · intro ex
    simp [cancelExecution, lookupExec]

/-- C3: over every pipeline path (success and each failure path alike) the
snapshot progress sequence is monotonically non-decreasing, draws from
0, 20, 40, 70, 90, 100, and finishes at exactly 100 in a terminal status. -/
theorem c3_progress_monotone (env : EngineEnv) (cmd eid : String) :
    List.Pairwise (· ≤ ·) ((runExecuteCommand env cmd eid).2.map Prod.snd)
    ∧ (∀ p ∈ (runExecuteCommand env cmd eid).2.map Prod.snd,
        p ∈ ([0, 20, 40, 70, 90, 100] : List ℚ))
    ∧ (runExecuteCommand env cmd eid).1.progress = 100
    ∧ (runExecuteCommand env cmd eid).1.status.isTerminal = true := by
  obtain ⟨cl, pr, st, dr, mr⟩ := env
  rcases pr with e | pc
  · rw [runExecuteCommand_trace_parseErr]
    exact ⟨by decide, by decide, rfl, rfl⟩
  · rcases st with _ | e2
    · rcases dr with e3 | rs
      · rw [runExecuteCommand_trace_dispatchErr]
        exact ⟨by decide, by decide, rfl, rfl⟩
      · rcases mr with e4 | u
        · rw [runExecuteCommand_trace_monErr]
          exact ⟨by decide, by decide, rfl, rfl⟩
        · rw [runExecuteCommand_trace_allOk]
          exact ⟨by decide, by decide, rfl, rfl⟩
    · rw [runExecuteCommand_trace_safetyThrow]
      exact ⟨by decide, by decide, rfl, rfl⟩

/-- C4 counterexample: when the monitoring stage raises, the failure is
recorded on the monitoring step and the execution still terminates COMPLETED,
but the progress value 90 never occurs in the run: progress stays at 70 until
completion forces 100, refuting "advances to 90 whether the stage succeeds or
fails". -/
theorem c4_counterexample :
    ((runExecuteCommand engineEnvMonFail "Set temperature to 12 keV" "cmd_1").1.steps.map
        (fun s => (s.step_id, s.status))).getLast?
      = some ("monitoring", ExecutionStatus.failed)
    ∧ (runExecuteCommand engineEnvMonFail "Set temperature to 12 keV" "cmd_1").1.status
      = ExecutionStatus.completed
    ∧ (90 : ℚ) ∉
        ((runExecuteCommand engineEnvMonFail "Set temperature to 12 keV" "cmd_1").2.map
          Prod.snd) := by
  refine ⟨rfl, rfl, ?_⟩
  rw [show (runExecuteCommand engineEnvMonFail "Set temperature to 12 keV" "cmd_1").2
      = [(ExecutionStatus.pending, 0), (ExecutionStatus.parsing, 0),
         (ExecutionStatus.parsing, 20), (ExecutionStatus.parsing, 40),
         (ExecutionStatus.executing, 40), (ExecutionStatus.executing, 70),
         (ExecutionStatus.monitoring, 70), (ExecutionStatus.completed, 70),
         (ExecutionStatus.completed, 100), (ExecutionStatus.completed, 100)]
    from rfl]
  decide

/-- C4 amended: a monitoring-stage failure is recorded on the monitoring step
and the execution still proceeds to completion and terminates COMPLETED with
progress forced to 100; however progress is advanced to 90 only when the
monitoring stage succeeds, never on its failure path. -/
theorem c4_monitoring_failure_nonfatal (env : EngineEnv) (cmd eid : String)
    (pc : ParsedCommand) (rs : List ControlResult)
    (hp : env.parseResult = Except.ok pc) (hs : env.safetyThrows = none)
    (hd : env.dispatchResult = Except.ok rs) :
    (runExecuteCommand env cmd eid).1.status = ExecutionStatus.completed
    ∧ (runExecuteCommand env cmd eid).1.progress = 100
    ∧ (∀ e, env.monitorResult = Except.error e →
        (runExecuteCommand env cmd eid).1.steps.map
            (fun s => (s.step_id, s.status, s.error_message)) =
          [("parsing", ExecutionStatus.completed, none),
           ("safety_check", ExecutionStatus.completed, none),
           ("execution", ExecutionStatus.completed, none),
           ("monitoring", ExecutionStatus.failed, some e)]
        ∧ (90 : ℚ) ∉ (runExecuteCommand env cmd eid).2.map Prod.snd)
    ∧ (∀ u, env.monitorResult = Except.ok u →
        (90 : ℚ) ∈ (runExecuteCommand env cmd eid).2.map Prod.snd) := by
  obtain ⟨cl, pr, st, dr, mr⟩ := env
  dsimp only at hp hs hd
  subst hp
  subst hs
  subst hd
  rcases mr with e4 | u4
  · refine ⟨rfl, rfl, ?_, ?_⟩
    · intro e he
      dsimp only at he
      injection he with h
      subst h
      refine ⟨rfl, ?_⟩
      rw [runExecuteCommand_trace_monErr]
      decide
    · intro u hu
      exact Except.noConfusion hu
  · refine ⟨rfl, rfl, ?_, ?_⟩
    · intro e he
      exact Except.noConfusion he
    · intro u hu
      rw [runExecuteCommand_trace_allOk]
      decide

theorem c4_witness :
    (runExecuteCommand engineEnvMonFail "Set temperature to 12 keV" "cmd_1").1.status
      = ExecutionStatus.completed
    ∧ (90 : ℚ) ∉
        (runExecuteCommand engineEnvMonFail "Set temperature to 12 keV" "cmd_1").2.map
          Prod.snd :=
  ⟨(c4_monitoring_failure_nonfatal engineEnvMonFail "Set temperature to 12 keV" "cmd_1"
      (demoParseCommand "Set temperature to 12 keV") dispatchResultsDemo rfl rfl rfl).1,
    ((c4_monitoring_failure_nonfatal engineEnvMonFail "Set temperature to 12 keV" "cmd_1"
      (demoParseCommand "Set temperature to 12 keV") dispatchResultsDemo rfl rfl rfl).2.2.1
      "monitoring degraded" rfl).2⟩

/-- C1 (the code violates the claim): on "Set temperature to 25 keV" the
safety_check stage computes a validator result with passed = false (demo-parsed
coil current 2900 A beyond the modelled 2000 A limit), yet the engine proceeds
to the dispatch stage, records the operation results, and the execution
terminates COMPLETED rather than FAILED. -/
theorem c1_safety_gate_not_enforced :
    (performSafetyChecks specSafetyLimits
        (demoParseCommand "Set temperature to 25 keV")).passed = false
    ∧ (runExecuteCommand engineEnvOverLimit "Set temperature to 25 keV" "cmd_1").1.status
        = ExecutionStatus.completed
    ∧ (runExecuteCommand engineEnvOverLimit "Set temperature to 25 keV" "cmd_1").1.results
        = dispatchResultsDemo
    ∧ (runExecuteCommand engineEnvOverLimit
        "Set temperature to 25 keV" "cmd_1").1.results.length = 2
    ∧ ((runExecuteCommand engineEnvOverLimit "Set temperature to 25 keV" "cmd_1").1.steps.map
        (fun s => (s.step_id, s.status)))
        = [("parsing", ExecutionStatus.completed),
           ("safety_check", ExecutionStatus.completed),
           ("execution", ExecutionStatus.completed),
           ("monitoring", ExecutionStatus.completed)] := by
  refine ⟨?_, rfl, rfl, rfl, rfl⟩
  have h25 : demoEffectiveTemp "Set temperature to 25 keV" = 25 := rfl
  simp only [demoParseCommand, performSafetyChecks, h25, List.foldl_cons, List.foldl_nil,
    specSafetyLimits]
  norm_num
  decide

theorem c2_witness :
    ((lookupExec (cancelExecution
        [("cmd_1", (runExecuteCommand engineEnvOK "Set temperature to 12 keV" "cmd_1").1)]
        "cmd_1").1 "cmd_1").map CommandExecution.status)
      = some ExecutionStatus.cancelled :=
  (c2_pipeline_terminal_stable engineEnvOK "Set temperature to 12 keV" "cmd_1").2.2
    (runExecuteCommand engineEnvOK "Set temperature to 12 keV" "cmd_1").1

theorem c3_witness :
    (runExecuteCommand engineEnvOK "Set temperature to 12 keV" "cmd_1").1.progress = 100
    ∧ (20 : ℚ) ∈ ([0, 20, 40, 70, 90, 100] : List ℚ) := by
  refine ⟨(c3_progress_monotone engineEnvOK "Set temperature to 12 keV" "cmd_1").2.2.1, ?_⟩
  refine (c3_progress_monotone engineEnvOK "Set temperature to 12 keV" "cmd_1").2.1 20 ?_
  rw [show (runExecuteCommand engineEnvOK "Set temperature to 12 keV" "cmd_1").2
      = [(ExecutionStatus.pending, 0), (ExecutionStatus.parsing, 0),
         (ExecutionStatus.parsing, 20), (ExecutionStatus.parsing, 40),
         (ExecutionStatus.executing, 40), (ExecutionStatus.executing, 70),
         (ExecutionStatus.monitoring, 70), (ExecutionStatus.monitoring, 90),
         (ExecutionStatus.completed, 90), (ExecutionStatus.completed, 100),
         (ExecutionStatus.completed, 100)]
    from rfl]
  decide
